import Mathlib

/-!
Shallow embedding of the KinPeek admin-panel client code.

Two client implementations exist in the repository:
* the apiRequest-based client (source file registered on DOMContentLoaded,
  using localStorage key kinpeek_token) — embedded below without a name
  qualifier;
* the legacy static client (src/static/admin.js, module-level token
  variable) — embedded with a Static prefixed name.

Strings are Lean String; machine timestamps are Int milliseconds;
JSON.stringify is an uninterpreted serialization parameter; a fetch
response is an explicit environment value (HttpResponse) supplied to
each handler.
-/

/-- Character list of a JavaScript string. -/
def chars (s : String) : List Char := s.data

/-- Longest digit run at the head of a character list
(the digit-consuming loop of JavaScript parseInt). -/
def takeDigits : List Char → List Char
  | c :: cs => if c.isDigit then c :: takeDigits cs else []
  | [] => []

/-- Decimal value of a digit list. -/
def digitsToNat (l : List Char) : Nat :=
  l.foldl (fun acc c => acc * 10 + (c.toNat - 48)) 0

/-- JavaScript parseInt(s, 10): skip leading whitespace, optional sign,
then the longest digit run; NaN (modelled as none) when no digit follows. -/
def parseIntJS (s : String) : Option Int :=
  let l := (chars s).dropWhile (fun c => c.isWhitespace)
  let signAndRest : Int × List Char :=
    match l with
    | '-' :: cs => (-1, cs)
    | '+' :: cs => (1, cs)
    | _ => (1, l)
  let ds := takeDigits signAndRest.2
  if ds.isEmpty then none
  else some (signAndRest.1 * (digitsToNat ds : Int))

/-- HTML serialization of one text character, as produced by
createTextNode followed by reading innerHTML (escapeHTML helper). -/
def escapeChar (c : Char) : List Char :=
  if c = '&' then "&amp;".data
  else if c = '<' then "&lt;".data
  else if c = '>' then "&gt;".data
  else [c]

/-- escapeHTML(str): append a text node holding str to a div and read
back the div innerHTML. -/
def escapeHTML (s : String) : String :=
  String.mk (((chars s).map escapeChar).flatten)

/-- Whether pat occurs verbatim at the head of the second list. -/
def headMatches : List Char → List Char → Bool
  | [], _ => true
  | _ :: _, [] => false
  | c :: cs, d :: ds => c = d && headMatches cs ds

/-- Whether pat occurs as a contiguous substring of the second list. -/
def hasSub (pat : List Char) : List Char → Bool
  | [] => pat.isEmpty
  | c :: cs => headMatches pat (c :: cs) || hasSub pat cs

theorem escapeChar_no_lt (c : Char) : ('<' : Char) ∉ escapeChar c := by
  unfold escapeChar
  split
  · decide
  · split
    · decide
    · split
      · decide
      · rename_i h1 h2 h3
        intro hm
        simp only [List.mem_singleton] at hm
        exact h2 hm.symm

theorem escapeHTML_no_lt (s : String) : ('<' : Char) ∉ (escapeHTML s).data := by
  unfold escapeHTML
  intro hm
  simp only [String.data] at hm
  rcases List.mem_flatten.mp hm with ⟨t, ht, hct⟩
  rcases List.mem_map.mp ht with ⟨c, _, rfl⟩
  exact escapeChar_no_lt c hct

theorem headMatches_false_of_head_ne {c : Char} {cs : List Char}
    (pat : List Char) (hpat : pat.head? = some '<') (hc : c ≠ '<') :
    headMatches pat (c :: cs) = false := by
  cases pat with
  | nil => simp at hpat
  | cons p ps =>
      simp only [List.head?] at hpat
      cases hpat
      have hne : ¬ (('<' : Char) = c) := fun h => hc h.symm
      simp [headMatches, hne]

/-- A pattern opening with a markup delimiter never occurs inside a
character list free of that delimiter. -/
theorem hasSub_false_of_no_lt (pat : List Char) (hpat : pat.head? = some '<')
    (l : List Char) (hl : ('<' : Char) ∉ l) : hasSub pat l = false := by
  induction l with
  | nil =>
      cases pat with
      | nil => simp at hpat
      | cons p ps => simp [hasSub]
  | cons c cs ih =>
      have hc : c ≠ '<' := fun h => hl (h ▸ List.mem_cons_self c cs)
      have hcs : ('<' : Char) ∉ cs := fun h => hl (List.mem_cons_of_mem c h)
      simp [hasSub, headMatches_false_of_head_ne pat hpat hc, ih hcs]

/-! ## Client state and the request gateway (apiRequest client) -/

/-- Which of the two page sections is displayed. -/
inductive View
  | login
  | admin
deriving DecidableEq, Repr

/-- Session-relevant client state: the authToken variable, the
localStorage entry under key kinpeek_token, and the visible section. -/
structure ClientState where
  authToken : Option String
  storedToken : Option String
  view : View
deriving DecidableEq, Repr

/-- showLogin(): display the login section, hide the admin content,
remove the persisted token and null the in-memory token. -/
def showLogin (s : ClientState) : ClientState :=
  { s with view := View.login, storedToken := none, authToken := none }

/-- Environment model of a settled fetch response: HTTP status, whether
response.json() resolves, the detail field of the parsed body when
present, the content-length header, and the parsed payload used on the
success path. -/
structure HttpResponse (α : Type) where
  status : Nat
  jsonParses : Bool
  detail : Option String
  contentLength : Option String
  payload : α
deriving Repr

/-- fetch Response.ok: status in the inclusive range 200–299. -/
def HttpResponse.ok {α : Type} (r : HttpResponse α) : Bool :=
  decide (200 ≤ r.status) && decide (r.status < 300)

/-- A request handed to fetch: url, method, headers, optional
serialized body. -/
structure ApiCall where
  url : String
  method : String
  headers : List (String × String)
  body : Option String
deriving DecidableEq, Repr

/-- Result of one apiRequest invocation: the state after its side
effects, the fetch call issued (none when short-circuited before the
network), and the value returned or the error message thrown.
Except.ok none is the null returned for a no-content response. -/
structure ApiResult (α : Type) where
  state : ClientState
  call : Option ApiCall
  result : Except String (Option α)

/-- The message raised for a non-ok status:
(await response.json().catch(fallback)).detail, with the empty or
absent detail replaced by the generic status message. -/
def errorMessage {α : Type} (resp : HttpResponse α) : String :=
  let d : Option String := if resp.jsonParses then resp.detail else some "Unknown error"
  match d with
  | some m => if m = "" then "HTTP error! status: " ++ toString resp.status else m
  | none => "HTTP error! status: " ++ toString resp.status

/-- apiRequest(url, method, body, requiresAuth) against a settled
response resp, with JSON.stringify abstracted as serialize. -/
def apiRequest {α β : Type} (serialize : β → String) (s : ClientState)
    (url method : String) (body : Option β) (requiresAuth : Bool)
    (resp : HttpResponse α) : ApiResult α :=
  if requiresAuth ∧ s.authToken = none then
    { state := showLogin s, call := none, result := Except.error "Not authenticated" }
  else
    let headers :=
      [("Content-Type", "application/json")] ++
        (if requiresAuth then
          [("Authorization", "Bearer " ++ s.authToken.getD "")] else [])
    let call : ApiCall :=
      { url := url, method := method, headers := headers,
        body := body.map serialize }
    if resp.status = 401 ∧ requiresAuth then
      { state := showLogin s, call := some call,
        result := Except.error "Authentication failed" }
    else if resp.ok = false then
      { state := s, call := some call,
        result := Except.error (errorMessage resp) }
    else if resp.status = 204 ∨ resp.contentLength = some "0" then
      { state := s, call := some call, result := Except.ok none }
    else
      { state := s, call := some call, result := Except.ok (some resp.payload) }

/-! ## Days-remaining computation -/

/-- Milliseconds per day, 1000 * 60 * 60 * 24. -/
def msPerDay : Int := 86400000

/-- calculateDaysRemaining(expiresAt) at the instant now:
Math.ceil((expiry - now) / msPerDay) clamped below at 0.
Math.ceil of the real quotient is the negated floor division of the
negated difference. -/
def calculateDaysRemaining (now expiresAt : Int) : Int :=
  max 0 (-(Int.fdiv (now - expiresAt) msPerDay))

/-! ## Share records and row rendering (apiRequest client) -/

/-- A share record as delivered by the backend list endpoint. -/
structure Video where
  share_id : Int
  video_name : String
  stash_video_id : Int
  expires_at : Int
  hits : Int
  share_url : String
deriving Repr

/-- The row template assigned to row.innerHTML, with
Date.toLocaleString abstracted as localeDate and the implicit current
time passed as now. -/
def renderRow (localeDate : Int → String) (now : Int) (v : Video) : String :=
  "\n                <td>" ++ toString v.share_id
    ++ "</td>\n                <td>" ++ escapeHTML v.video_name
    ++ "</td>\n                <td>" ++ toString v.stash_video_id
    ++ "</td>\n                <td>" ++ localeDate v.expires_at
    ++ "</td>\n                <td>" ++ toString v.hits
    ++ "</td>\n                <td>\n                    <a href=\"" ++ v.share_url
    ++ "\" target=\"_blank\">" ++ v.share_url
    ++ "</a>\n                    <button class=\"copy-button\" data-url=\"" ++ v.share_url
    ++ "\">Copy</button>\n                </td>\n                <td>\n                    <button class=\"edit-button\" data-share-id=\""
    ++ toString v.share_id
    ++ "\" data-video-name=\"" ++ escapeHTML v.video_name
    ++ "\" data-days-valid=\"" ++ toString (calculateDaysRemaining now v.expires_at)
    ++ "\">Edit</button>\n                    <button class=\"delete-button\" data-share-id=\""
    ++ toString v.share_id
    ++ "\">Delete</button>\n                </td>\n            "

/-- renderSharedVideos(videos): the list of row markups written into
the table, with the placeholder row for a null or empty list. -/
def renderSharedVideos (localeDate : Int → String) (now : Int)
    (videos : Option (List Video)) : List String :=
  match videos with
  | none => ["<tr><td colspan=\"7\">No videos shared yet.</td></tr>"]
  | some vs =>
      if vs.isEmpty then ["<tr><td colspan=\"7\">No videos shared yet.</td></tr>"]
      else vs.map (renderRow localeDate now)

/-! ## Event handlers (apiRequest client) -/

/-- An observable step of a handler: a fetch issued, or an invocation
of the list refresh fetchSharedVideos. -/
inductive Event
  | request (c : ApiCall)
  | refresh
deriving DecidableEq, Repr

/-- Trace contribution of an optional issued call. -/
def callTrace : Option ApiCall → List Event
  | some c => [Event.request c]
  | none => []

/-- Serializer for requests that carry no body. -/
def unitSerialize : Unit → String := fun _ => ""

/-- The absent body of a GET or DELETE apiRequest call. -/
def noBody : Option Unit := none

/-- Outcome of fetchSharedVideos. -/
structure FetchOutcome where
  state : ClientState
  call : Option ApiCall
  tableRows : List String
deriving Repr

/-- fetchSharedVideos(): list request through apiRequest, rendering the
rows on success and the single failure row when the request throws. -/
def fetchSharedVideos (localeDate : Int → String) (now : Int)
    (s : ClientState) (resp : HttpResponse (List Video)) : FetchOutcome :=
  let r := apiRequest unitSerialize s "/shared_videos" "GET" noBody true resp
  match r.result with
  | Except.ok v =>
      { state := r.state, call := r.call,
        tableRows := renderSharedVideos localeDate now v }
  | Except.error _ =>
      { state := r.state, call := r.call,
        tableRows :=
          ["<tr><td colspan=\"7\">Failed to load shared videos. Please try again.</td></tr>"] }

/-- Success payload of the create endpoint. -/
structure CreateResult where
  share_url : String
deriving Repr

/-- The JSON body of a create or edit request. -/
structure ShareBody where
  video_name : String
  stash_video_id : Int
  days_valid : Int
deriving DecidableEq, Repr

/-- Outcome of the create-form submit handler. -/
structure SubmitOutcome where
  state : ClientState
  trace : List Event
  shareMessage : String
  shareError : String
  formReset : Bool
deriving Repr

/-- Engine-dependent TypeError text for reading share_url off a null
result; the exact wording is irrelevant to every claim. -/
def typeErrorNullShareUrl : String := "Cannot read properties of null"

/-- The shareForm submit handler: local validation, then POST /share
through apiRequest; on success the confirmation message, form reset and
list refresh, on failure the inline error. -/
def shareFormSubmit (serialize : ShareBody → String) (s : ClientState)
    (videoName stashId daysValid : String)
    (resp : HttpResponse CreateResult) : SubmitOutcome :=
  if videoName = "" ∨ parseIntJS stashId = none ∨ parseIntJS daysValid = none then
    { state := s, trace := [], shareMessage := "",
      shareError := "Please fill in all fields correctly.", formReset := false }
  else
    let body : ShareBody :=
      { video_name := videoName,
        stash_video_id := (parseIntJS stashId).getD 0,
        days_valid := (parseIntJS daysValid).getD 0 }
    let r := apiRequest serialize s "/share" "POST" (some body) true resp
    match r.result with
    | Except.ok (some data) =>
        { state := r.state, trace := callTrace r.call ++ [Event.refresh],
          shareMessage := "Video shared successfully! URL: " ++ data.share_url,
          shareError := "", formReset := true }
    | Except.ok none =>
        { state := r.state, trace := callTrace r.call, shareMessage := "",
          shareError := "Failed to share video: " ++ typeErrorNullShareUrl,
          formReset := false }
    | Except.error e =>
        { state := r.state, trace := callTrace r.call, shareMessage := "",
          shareError := "Failed to share video: " ++ e, formReset := false }

/-- The value assigned to the edit-days field when the modal opens:
Math.max(1, parseInt(attribute) || 7). -/
def prefillDays (daysValid : String) : Int :=
  let p : Int :=
    match parseIntJS daysValid with
    | some n => if n = 0 then 7 else n
    | none => 7
  max 1 p

/-- Modal state produced by the edit-button click handler. -/
structure EditModalOutcome where
  editShareId : String
  editVideoName : String
  editDaysValid : Int
  modalOpen : Bool
deriving Repr

/-- The edit-button click handler, reading the data attributes of the
clicked row button. -/
def editButtonClick (shareId videoName daysValid : String) : EditModalOutcome :=
  { editShareId := shareId, editVideoName := videoName,
    editDaysValid := prefillDays daysValid, modalOpen := true }

/-- Outcome of the save-edit click handler. -/
structure EditSaveOutcome where
  state : ClientState
  trace : List Event
  requestBody : Option ShareBody
  modalOpen : Bool
  editError : String
deriving Repr

/-- The saveEditButton click handler: builds the update body (with the
placeholder stash_video_id of 0), validates, then PUT /edit_share/id
through apiRequest. requestBody is the structured body of the issued
PUT, when one was issued. -/
def saveEditClick (serialize : ShareBody → String) (s : ClientState)
    (shareId editVideoName editDaysValid : String)
    (resp : HttpResponse Unit) : EditSaveOutcome :=
  let updated : ShareBody :=
    { video_name := editVideoName, stash_video_id := 0,
      days_valid := (parseIntJS editDaysValid).getD 0 }
  if editVideoName = "" ∨ parseIntJS editDaysValid = none then
    { state := s, trace := [], requestBody := none, modalOpen := true,
      editError := "Please fill in all fields correctly." }
  else
    let r := apiRequest serialize s ("/edit_share/" ++ shareId) "PUT"
      (some updated) true resp
    match r.result with
    | Except.ok _ =>
        { state := r.state, trace := callTrace r.call ++ [Event.refresh],
          requestBody := (match r.call with | some _ => some updated | none => none),
          modalOpen := false, editError := "" }
    | Except.error e =>
        { state := r.state, trace := callTrace r.call,
          requestBody := (match r.call with | some _ => some updated | none => none),
          modalOpen := true, editError := "Failed to update share: " ++ e }

/-- Outcome of the delete-button click handler. -/
structure DeleteOutcome where
  state : ClientState
  trace : List Event
  alertMessage : String
deriving Repr

/-- The delete-button click handler: confirmation prompt, DELETE
through apiRequest, refresh on success, alert on failure. -/
def deleteButtonClick (s : ClientState) (shareId : String)
    (confirmed : Bool) (resp : HttpResponse Unit) : DeleteOutcome :=
  if confirmed = false then
    { state := s, trace := [], alertMessage := "" }
  else
    let r := apiRequest unitSerialize s ("/delete_share/" ++ shareId) "DELETE"
      noBody true resp
    match r.result with
    | Except.ok _ =>
        { state := r.state, trace := callTrace r.call ++ [Event.refresh],
          alertMessage := "" }
    | Except.error e =>
        { state := r.state, trace := callTrace r.call,
          alertMessage := "Failed to delete share: " ++ e }

/-- Payload of the title-lookup endpoint; an absent field models a
response without a title. -/
structure LookupData where
  title : Option String
deriving Repr

/-- Outcome of the title-lookup click handler. -/
structure LookupOutcome where
  state : ClientState
  call : Option ApiCall
  videoName : String
  shareError : String
deriving Repr

/-- The lookupTitleButton click handler; priorName is the content of
the name field when the click happens. -/
def lookupTitleClick (s : ClientState) (priorName stashId : String)
    (resp : HttpResponse LookupData) : LookupOutcome :=
  if stashId = "" then
    { state := s, call := none, videoName := priorName,
      shareError := "Please enter a Stash Video ID." }
  else
    let r := apiRequest unitSerialize s ("/get_video_title/" ++ stashId) "GET"
      noBody true resp
    match r.result with
    | Except.ok (some d) =>
        (match d.title with
        | some t =>
            if t = "" then
              { state := r.state, call := r.call, videoName := "",
                shareError := "Could not find title for this ID." }
            else
              { state := r.state, call := r.call, videoName := t, shareError := "" }
        | none =>
            { state := r.state, call := r.call, videoName := "",
              shareError := "Could not find title for this ID." })
    | Except.ok none =>
        { state := r.state, call := r.call, videoName := "",
          shareError := "Could not find title for this ID." }
    | Except.error e =>
        { state := r.state, call := r.call, videoName := "",
          shareError := "Error looking up title: " ++ e }

/-! ## The legacy static client (src/static/admin.js) -/

/-- JavaScript template-literal interpolation of the module token
variable: the null token prints as the four characters null. -/
def jsTemplateTok : Option String → String
  | some t => t
  | none => "null"

/-- A share record as used by the static client (share_id interpolated
verbatim into onclick attributes). -/
structure StaticVideo where
  share_id : String
  video_name : String
  stash_video_id : Int
  expires_at : String
  hits : Int
deriving Repr

/-- The row template of static loadVideos; no field is escaped.
localeDate abstracts new Date(expires_at).toLocaleString(). -/
def staticRenderRow (localeDate : String) (v : StaticVideo) : String :=
  "\n                <td>" ++ v.share_id
    ++ "</td>\n                <td>" ++ v.video_name
    ++ "</td>\n                <td>" ++ toString v.stash_video_id
    ++ "</td>\n                <td>" ++ localeDate
    ++ "</td>\n                <td>" ++ toString v.hits
    ++ "</td>\n                <td>\n                    <button class=\"btn btn-sm btn-warning\" onclick=\"editVideo(\x27"
    ++ v.share_id
    ++ "\x27)\">Edit</button>\n                    <button class=\"btn btn-sm btn-danger\" onclick=\"deleteVideo(\x27"
    ++ v.share_id
    ++ "\x27)\">Delete</button>\n                </td>\n            "

/-- The request issued by static loadVideos: unconditional, with the
current token (possibly the literal null) in the bearer header. -/
def staticLoadVideosCall (token : Option String) : ApiCall :=
  { url := "/shared_videos", method := "GET",
    headers := [("Authorization", "Bearer " ++ jsTemplateTok token)],
    body := none }

/-- Outcome of static loadVideos: the call it issued and the rows it
wrote (empty when the handler returned early on a non-ok status,
leaving the table untouched). -/
structure StaticLoadOutcome where
  call : Option ApiCall
  tableRows : List String
deriving Repr

/-- static loadVideos(): fetches the list with no token guard, then
renders unescaped rows on an ok status. -/
def staticLoadVideos (token : Option String) (localeDate : String)
    (resp : HttpResponse (List StaticVideo)) : StaticLoadOutcome :=
  let call := staticLoadVideosCall token
  if resp.ok then
    { call := some call,
      tableRows := resp.payload.map (staticRenderRow localeDate) }
  else
    { call := some call, tableRows := [] }

/-- Outcome of the static share-form submit handler. -/
structure StaticSubmitOutcome where
  call : Option ApiCall
  refreshed : Bool
  formReset : Bool
deriving Repr

/-- The static share-form submit handler: no local validation, the
three field strings are posted as-is (JSON.stringify abstracted as
jsonStringify); refresh and reset only on an ok status. -/
def staticShareSubmit (jsonStringify : String × String × String → String)
    (token : Option String) (videoName stashVideoId daysValid : String)
    (resp : HttpResponse Unit) : StaticSubmitOutcome :=
  let call : ApiCall :=
    { url := "/share", method := "POST",
      headers :=
        [("Content-Type", "application/json"),
         ("Authorization", "Bearer " ++ jsTemplateTok token)],
      body := some (jsonStringify (videoName, stashVideoId, daysValid)) }
  if resp.ok then
    { call := some call, refreshed := true, formReset := true }
  else
    { call := some call, refreshed := false, formReset := false }

/-! ## Branch lemmas for apiRequest -/

/-- The request shape issued by an authenticated apiRequest call. -/
def bearerCall (t url method : String) (body : Option String) : ApiCall :=
  { url := url, method := method,
    headers :=
      [("Content-Type", "application/json"),
       ("Authorization", "Bearer " ++ t)],
    body := body }

theorem apiRequest_guard {α β : Type} (serialize : β → String)
    (s : ClientState) (url method : String) (body : Option β)
    (resp : HttpResponse α) (h : s.authToken = none) :
    apiRequest serialize s url method body true resp =
      { state := showLogin s, call := none,
        result := Except.error "Not authenticated" } := by
  simp [apiRequest, h]

theorem apiRequest_auth_401 {α β : Type} (serialize : β → String)
    (s : ClientState) (t : String) (url method : String) (body : Option β)
    (resp : HttpResponse α) (h : s.authToken = some t)
    (h401 : resp.status = 401) :
    apiRequest serialize s url method body true resp =
      { state := showLogin s,
        call := some (bearerCall t url method (body.map serialize)),
        result := Except.error "Authentication failed" } := by
  simp [apiRequest, h, h401, bearerCall]

theorem apiRequest_auth_fail {α β : Type} (serialize : β → String)
    (s : ClientState) (t : String) (url method : String) (body : Option β)
    (resp : HttpResponse α) (h : s.authToken = some t)
    (h401 : resp.status ≠ 401) (hok : resp.ok = false) :
    apiRequest serialize s url method body true resp =
      { state := s,
        call := some (bearerCall t url method (body.map serialize)),
        result := Except.error (errorMessage resp) } := by
  simp [apiRequest, h, h401, hok, bearerCall]

theorem apiRequest_auth_empty {α β : Type} (serialize : β → String)
    (s : ClientState) (t : String) (url method : String) (body : Option β)
    (resp : HttpResponse α) (h : s.authToken = some t)
    (hok : resp.ok = true)
    (hempty : resp.status = 204 ∨ resp.contentLength = some "0") :
    apiRequest serialize s url method body true resp =
      { state := s,
        call := some (bearerCall t url method (body.map serialize)),
        result := Except.ok none } := by
  have h401 : resp.status ≠ 401 := by
    intro hx
    simp [HttpResponse.ok, hx] at hok
  simp [apiRequest, h, h401, hok, hempty, bearerCall]

theorem apiRequest_auth_payload {α β : Type} (serialize : β → String)
    (s : ClientState) (t : String) (url method : String) (body : Option β)
    (resp : HttpResponse α) (h : s.authToken = some t)
    (hok : resp.ok = true)
    (hfull : ¬ (resp.status = 204 ∨ resp.contentLength = some "0")) :
    apiRequest serialize s url method body true resp =
      { state := s,
        call := some (bearerCall t url method (body.map serialize)),
        result := Except.ok (some resp.payload) } := by
  have h401 : resp.status ≠ 401 := by
    intro hx
    simp [HttpResponse.ok, hx] at hok
  simp [apiRequest, h, h401, hok, hfull, bearerCall]

/-! ## Claim theorems -/

/-- C2 (confirmed): whenever a protected apiRequest call receives a
401 response, the in-memory token and the persisted token are cleared
and the view switches to login, with the fixed local error raised,
independent of the url, method and body of the action that issued the
request. -/
theorem protected_401_forces_logout {α β : Type} (serialize : β → String)
    (s : ClientState) (t : String) (url method : String) (body : Option β)
    (resp : HttpResponse α) (h : s.authToken = some t)
    (h401 : resp.status = 401) :
    (apiRequest serialize s url method body true resp).state.authToken = none ∧
    (apiRequest serialize s url method body true resp).state.storedToken = none ∧
    (apiRequest serialize s url method body true resp).state.view = View.login ∧
    (apiRequest serialize s url method body true resp).result =
      Except.error "Authentication failed" := by
  rw [apiRequest_auth_401 serialize s t url method body resp h h401]
  exact ⟨rfl, rfl, rfl, rfl⟩

/-- Witness for C2 at a concrete list request. -/
theorem protected_401_forces_logout_witness :
    (apiRequest unitSerialize
        { authToken := some "tok", storedToken := some "tok", view := View.admin }
        "/shared_videos" "GET" noBody true
        ({ status := 401, jsonParses := true, detail := some "expired",
           contentLength := none, payload := () } : HttpResponse Unit)).state.authToken = none ∧
    (apiRequest unitSerialize
        { authToken := some "tok", storedToken := some "tok", view := View.admin }
        "/shared_videos" "GET" noBody true
        ({ status := 401, jsonParses := true, detail := some "expired",
           contentLength := none, payload := () } : HttpResponse Unit)).state.storedToken = none ∧
    (apiRequest unitSerialize
        { authToken := some "tok", storedToken := some "tok", view := View.admin }
        "/shared_videos" "GET" noBody true
        ({ status := 401, jsonParses := true, detail := some "expired",
           contentLength := none, payload := () } : HttpResponse Unit)).state.view = View.login ∧
    (apiRequest unitSerialize
        { authToken := some "tok", storedToken := some "tok", view := View.admin }
        "/shared_videos" "GET" noBody true
        ({ status := 401, jsonParses := true, detail := some "expired",
           contentLength := none, payload := () } : HttpResponse Unit)).result =
      Except.error "Authentication failed" :=
  protected_401_forces_logout unitSerialize
    { authToken := some "tok", storedToken := some "tok", view := View.admin }
    "tok" "/shared_videos" "GET" noBody
    { status := 401, jsonParses := true, detail := some "expired",
      contentLength := none, payload := () } rfl rfl

/-- C6 (confirmed): the days-remaining value is the ceiling of the
expiry delta in days, clamped below at zero: exactly 3 for an expiry
three days ahead, 0 for every past expiry, and never negative. -/
theorem calculateDaysRemaining_spec (now e : Int) :
    calculateDaysRemaining now (now + 3 * msPerDay) = 3 ∧
    (e ≤ now → calculateDaysRemaining now e = 0) ∧
    0 ≤ calculateDaysRemaining now e := by
  refine ⟨?_, ?_, le_max_left 0 _⟩
  · unfold calculateDaysRemaining
    have hsub : now - (now + 3 * msPerDay) = (-3) * msPerDay := by ring
    rw [hsub, Int.fdiv_eq_ediv _ (by decide : (0 : Int) ≤ msPerDay),
      Int.mul_ediv_cancel _ (by decide : msPerDay ≠ 0)]
    decide
  · intro hle
    unfold calculateDaysRemaining
    have hnn : 0 ≤ Int.fdiv (now - e) msPerDay := by
      rw [Int.fdiv_eq_ediv _ (by decide : (0 : Int) ≤ msPerDay)]
      exact Int.ediv_nonneg (by omega) (by decide)
    exact max_eq_left (by omega)

/-- Witness for C6 at time 0 with an expired timestamp. -/
theorem calculateDaysRemaining_spec_witness :
    calculateDaysRemaining 0 (0 + 3 * msPerDay) = 3 ∧
    calculateDaysRemaining 0 (-5) = 0 ∧
    0 ≤ calculateDaysRemaining 0 (-5) :=
  ⟨(calculateDaysRemaining_spec 0 (-5)).1,
   (calculateDaysRemaining_spec 0 (-5)).2.1 (by decide),
   (calculateDaysRemaining_spec 0 (-5)).2.2⟩

/-- C9 (confirmed): every body carried by an issued edit-save PUT has
stash_video_id equal to the placeholder 0 and is built from the form
fields alone; the record's actual source-video identifier is never part
of it. -/
theorem edit_put_always_stash_zero (serialize : ShareBody → String)
    (s : ClientState) (shareId nm dv : String) (resp : HttpResponse Unit)
    (b : ShareBody)
    (h : (saveEditClick serialize s shareId nm dv resp).requestBody = some b) :
    b.stash_video_id = 0 ∧ b.video_name = nm ∧
    b.days_valid = (parseIntJS dv).getD 0 := by
  unfold saveEditClick at h
  split at h
  · simp at h
  · dsimp only [] at h
    split at h
    · split at h
      · cases h
        exact ⟨rfl, rfl, rfl⟩
      · cases h
    · split at h
      · cases h
        exact ⟨rfl, rfl, rfl⟩
      · cases h

/-- Witness for C9 at a concrete successful save. -/
theorem edit_put_always_stash_zero_witness :
    ({ video_name := "New name", stash_video_id := 0, days_valid := 3 } : ShareBody).stash_video_id = 0 ∧
    ({ video_name := "New name", stash_video_id := 0, days_valid := 3 } : ShareBody).video_name = "New name" ∧
    ({ video_name := "New name", stash_video_id := 0, days_valid := 3 } : ShareBody).days_valid = (parseIntJS "3").getD 0 :=
  edit_put_always_stash_zero (fun _ => "") 
    { authToken := some "tok", storedToken := some "tok", view := View.admin }
    "5" "New name" "3"
    { status := 200, jsonParses := true, detail := none,
      contentLength := none, payload := () }
    { video_name := "New name", stash_video_id := 0, days_valid := 3 }
    (by decide)

theorem append_ne_empty (a b : String) (h : a.data ≠ []) : a ++ b ≠ "" := by
  intro hx
  apply h
  have hd := congrArg String.data hx
  rw [String.data_append] at hd
  exact (List.append_eq_nil.mp hd).1

/-- C10 (confirmed): every failing title lookup that was actually
attempted clears the create-form name field to the empty string and
shows an inline error; the previously entered name is not preserved. -/
theorem lookup_failure_clears_name (s : ClientState) (priorName stashId : String)
    (resp : HttpResponse LookupData) (hsid : stashId ≠ "")
    (hfail : s.authToken = none ∨ resp.ok = false ∨
      (resp.status = 204 ∨ resp.contentLength = some "0") ∨
      resp.payload.title = none ∨ resp.payload.title = some "") :
    (lookupTitleClick s priorName stashId resp).videoName = "" ∧
    (lookupTitleClick s priorName stashId resp).shareError ≠ "" := by
  unfold lookupTitleClick
  rw [if_neg hsid]
  cases hA : s.authToken with
  | none =>
      rw [apiRequest_guard unitSerialize s ("/get_video_title/" ++ stashId) "GET" noBody resp hA]
      exact ⟨rfl, (by decide : ("Error looking up title: " ++ "Not authenticated" : String) ≠ "")⟩
  | some t =>
      by_cases h401 : resp.status = 401
      · rw [apiRequest_auth_401 unitSerialize s t ("/get_video_title/" ++ stashId) "GET" noBody resp hA h401]
        dsimp only []
        exact ⟨rfl, by decide⟩
      · by_cases hok : resp.ok = true
        · by_cases hemp : resp.status = 204 ∨ resp.contentLength = some "0"
          · rw [apiRequest_auth_empty unitSerialize s t ("/get_video_title/" ++ stashId) "GET" noBody resp hA hok hemp]
            dsimp only []
            exact ⟨rfl, by decide⟩
          · rw [apiRequest_auth_payload unitSerialize s t ("/get_video_title/" ++ stashId) "GET" noBody resp hA hok hemp]
            dsimp only []
            have htitle : resp.payload.title = none ∨ resp.payload.title = some "" := by
              rcases hfail with hf | hf | hf | hf | hf
              · rw [hA] at hf; cases hf
              · rw [hf] at hok; cases hok
              · exact absurd hf hemp
              · exact Or.inl hf
              · exact Or.inr hf
            rcases htitle with ht | ht
            · rw [ht]
              exact ⟨rfl, (by decide : ("Could not find title for this ID." : String) ≠ "")⟩
            · rw [ht]
              dsimp only []
              rw [if_pos rfl]
              exact ⟨rfl, (by decide : ("Could not find title for this ID." : String) ≠ "")⟩
        · have hokf : resp.ok = false := by
            cases hx : resp.ok
            · rfl
            · exact absurd hx hok
          rw [apiRequest_auth_fail unitSerialize s t ("/get_video_title/" ++ stashId) "GET" noBody resp hA h401 hokf]
          dsimp only []
          refine ⟨rfl, ?_⟩
          exact append_ne_empty "Error looking up title: " (errorMessage resp) (by decide)

/-- Witness for C10: an ok response whose payload carries no title. -/
theorem lookup_failure_clears_name_witness :
    (lookupTitleClick
        { authToken := some "tok", storedToken := some "tok", view := View.admin }
        "Old name" "42"
        { status := 200, jsonParses := true, detail := none,
          contentLength := none, payload := { title := none } }).videoName = "" ∧
    (lookupTitleClick
        { authToken := some "tok", storedToken := some "tok", view := View.admin }
        "Old name" "42"
        { status := 200, jsonParses := true, detail := none,
          contentLength := none, payload := { title := none } }).shareError ≠ "" :=
  lookup_failure_clears_name
    { authToken := some "tok", storedToken := some "tok", view := View.admin }
    "Old name" "42"
    { status := 200, jsonParses := true, detail := none,
      contentLength := none, payload := { title := none } }
    (by decide) (Or.inr (Or.inr (Or.inr (Or.inl rfl))))

/-- C8 (confirmed): in each mutating handler the list refresh appears
in the trace only when the mutating request completed with a success
status, and then strictly after the request event, never interleaved
with it. -/
theorem refresh_follows_successful_mutation
    (serialize : ShareBody → String) (s : ClientState)
    (nm si dv : String) (respC : HttpResponse CreateResult)
    (shareIdE nmE dvE : String) (respE : HttpResponse Unit)
    (shareIdD : String) (confirmed : Bool) (respD : HttpResponse Unit) :
    (Event.refresh ∈ (shareFormSubmit serialize s nm si dv respC).trace →
      (∃ c, (shareFormSubmit serialize s nm si dv respC).trace =
        [Event.request c, Event.refresh]) ∧ respC.ok = true) ∧
    (Event.refresh ∈ (saveEditClick serialize s shareIdE nmE dvE respE).trace →
      (∃ c, (saveEditClick serialize s shareIdE nmE dvE respE).trace =
        [Event.request c, Event.refresh]) ∧ respE.ok = true) ∧
    (Event.refresh ∈ (deleteButtonClick s shareIdD confirmed respD).trace →
      (∃ c, (deleteButtonClick s shareIdD confirmed respD).trace =
        [Event.request c, Event.refresh]) ∧ respD.ok = true) := by
  refine ⟨?_, ?_, ?_⟩
  · intro hmem
    unfold shareFormSubmit at hmem ⊢
    by_cases hval : nm = "" ∨ parseIntJS si = none ∨ parseIntJS dv = none
    · rw [if_pos hval] at hmem
      simp at hmem
    · rw [if_neg hval] at hmem ⊢
      dsimp only [] at hmem ⊢
      cases hA : s.authToken with
      | none =>
          rw [apiRequest_guard serialize s "/share" "POST" _ respC hA] at hmem
          dsimp only [] at hmem
          simp [callTrace] at hmem
      | some t =>
          by_cases h401 : respC.status = 401
          · rw [apiRequest_auth_401 serialize s t "/share" "POST" _ respC hA h401] at hmem
            dsimp only [] at hmem
            simp [callTrace] at hmem
          · by_cases hok : respC.ok = true
            · by_cases hemp : respC.status = 204 ∨ respC.contentLength = some "0"
              · rw [apiRequest_auth_empty serialize s t "/share" "POST" _ respC hA hok hemp] at hmem
                dsimp only [] at hmem
                simp [callTrace] at hmem
              · rw [apiRequest_auth_payload serialize s t "/share" "POST" _ respC hA hok hemp] at hmem ⊢
                exact ⟨⟨_, rfl⟩, hok⟩
            · have hokf : respC.ok = false := by
                cases hx : respC.ok
                · rfl
                · exact absurd hx hok
              rw [apiRequest_auth_fail serialize s t "/share" "POST" _ respC hA h401 hokf] at hmem
              dsimp only [] at hmem
              simp [callTrace] at hmem
  · intro hmem
    unfold saveEditClick at hmem ⊢
    by_cases hval : nmE = "" ∨ parseIntJS dvE = none
    · rw [if_pos hval] at hmem
      simp at hmem
    · rw [if_neg hval] at hmem ⊢
      dsimp only [] at hmem ⊢
      cases hA : s.authToken with
      | none =>
          rw [apiRequest_guard serialize s ("/edit_share/" ++ shareIdE) "PUT" _ respE hA] at hmem
          dsimp only [] at hmem
          simp [callTrace] at hmem
      | some t =>
          by_cases h401 : respE.status = 401
          · rw [apiRequest_auth_401 serialize s t ("/edit_share/" ++ shareIdE) "PUT" _ respE hA h401] at hmem
            dsimp only [] at hmem
            simp [callTrace] at hmem
          · by_cases hok : respE.ok = true
            · by_cases hemp : respE.status = 204 ∨ respE.contentLength = some "0"
              · rw [apiRequest_auth_empty serialize s t ("/edit_share/" ++ shareIdE) "PUT" _ respE hA hok hemp] at hmem ⊢
                exact ⟨⟨_, rfl⟩, hok⟩
              · rw [apiRequest_auth_payload serialize s t ("/edit_share/" ++ shareIdE) "PUT" _ respE hA hok hemp] at hmem ⊢
                exact ⟨⟨_, rfl⟩, hok⟩
            · have hokf : respE.ok = false := by
                cases hx : respE.ok
                · rfl
                · exact absurd hx hok
              rw [apiRequest_auth_fail serialize s t ("/edit_share/" ++ shareIdE) "PUT" _ respE hA h401 hokf] at hmem
              dsimp only [] at hmem
              simp [callTrace] at hmem
  · intro hmem
    unfold deleteButtonClick at hmem ⊢
    cases confirmed with
    | false =>
        rw [if_pos rfl] at hmem
        simp at hmem
    | true =>
        rw [if_neg (by decide)] at hmem ⊢
        dsimp only [] at hmem ⊢
        cases hA : s.authToken with
        | none =>
            rw [apiRequest_guard unitSerialize s ("/delete_share/" ++ shareIdD) "DELETE" noBody respD hA] at hmem
            dsimp only [] at hmem
            simp [callTrace] at hmem
        | some t =>
            by_cases h401 : respD.status = 401
            · rw [apiRequest_auth_401 unitSerialize s t ("/delete_share/" ++ shareIdD) "DELETE" noBody respD hA h401] at hmem
              dsimp only [] at hmem
              simp [callTrace] at hmem
            · by_cases hok : respD.ok = true
              · by_cases hemp : respD.status = 204 ∨ respD.contentLength = some "0"
                · rw [apiRequest_auth_empty unitSerialize s t ("/delete_share/" ++ shareIdD) "DELETE" noBody respD hA hok hemp] at hmem ⊢
                  exact ⟨⟨_, rfl⟩, hok⟩
                · rw [apiRequest_auth_payload unitSerialize s t ("/delete_share/" ++ shareIdD) "DELETE" noBody respD hA hok hemp] at hmem ⊢
                  exact ⟨⟨_, rfl⟩, hok⟩
              · have hokf : respD.ok = false := by
                  cases hx : respD.ok
                  · rfl
                  · exact absurd hx hok
                rw [apiRequest_auth_fail unitSerialize s t ("/delete_share/" ++ shareIdD) "DELETE" noBody respD hA h401 hokf] at hmem
                dsimp only [] at hmem
                simp [callTrace] at hmem

/-- Witness for C8: all three mutating handlers at successful concrete
requests. -/
theorem refresh_follows_successful_mutation_witness :
    ((∃ c, (shareFormSubmit (fun _ => "b") 
        { authToken := some "tok", storedToken := some "tok", view := View.admin }
        "My Video" "12" "30"
        { status := 200, jsonParses := true, detail := none,
          contentLength := none, payload := { share_url := "/watch/abc" } }).trace =
        [Event.request c, Event.refresh]) ∧
      ({ status := 200, jsonParses := true, detail := none,
         contentLength := none, payload := { share_url := "/watch/abc" } } : HttpResponse CreateResult).ok = true) ∧
    ((∃ c, (saveEditClick (fun _ => "b")
        { authToken := some "tok", storedToken := some "tok", view := View.admin }
        "5" "New name" "3"
        { status := 200, jsonParses := true, detail := none,
          contentLength := none, payload := () }).trace =
        [Event.request c, Event.refresh]) ∧
      ({ status := 200, jsonParses := true, detail := none,
         contentLength := none, payload := () } : HttpResponse Unit).ok = true) ∧
    ((∃ c, (deleteButtonClick
        { authToken := some "tok", storedToken := some "tok", view := View.admin }
        "5" true
        { status := 200, jsonParses := true, detail := none,
          contentLength := none, payload := () }).trace =
        [Event.request c, Event.refresh]) ∧
      ({ status := 200, jsonParses := true, detail := none,
         contentLength := none, payload := () } : HttpResponse Unit).ok = true) := by
  have h := refresh_follows_successful_mutation (fun _ => "b")
    { authToken := some "tok", storedToken := some "tok", view := View.admin }
    "My Video" "12" "30"
    { status := 200, jsonParses := true, detail := none,
      contentLength := none, payload := { share_url := "/watch/abc" } }
    "5" "New name" "3"
    { status := 200, jsonParses := true, detail := none,
      contentLength := none, payload := () }
    "5" true
    { status := 200, jsonParses := true, detail := none,
      contentLength := none, payload := () }
  exact ⟨h.1 (by decide), h.2.1 (by decide), h.2.2 (by decide)⟩

/-! ## Sample values used by witnesses -/

/-- A state with no token present. -/
def sampleNoTokenState : ClientState :=
  { authToken := none, storedToken := none, view := View.admin }

/-- A plain ok response with no payload of interest. -/
def sampleOkUnit : HttpResponse Unit :=
  { status := 200, jsonParses := true, detail := none,
    contentLength := none, payload := () }

/-- An ok response of the create endpoint. -/
def sampleOkCreate : HttpResponse CreateResult :=
  { status := 200, jsonParses := true, detail := none,
    contentLength := none, payload := { share_url := "/watch/abc" } }

/-- An ok response of the lookup endpoint carrying a title. -/
def sampleOkLookup : HttpResponse LookupData :=
  { status := 200, jsonParses := true, detail := none,
    contentLength := none, payload := { title := some "A title" } }

/-- An ok response of the list endpoint with no records. -/
def sampleOkList : HttpResponse (List Video) :=
  { status := 200, jsonParses := true, detail := none,
    contentLength := none, payload := [] }

/-- C1 counterexample: the legacy static client issues the protected
list request even when no token is present — the bearer header then
carries the literal text null — so the request does reach the network
layer, refuting the claim for src/static/admin.js loadVideos. -/
theorem static_load_reaches_network_without_token :
    (staticLoadVideos none "1/1/2020, 12:00:00 AM"
      { status := 200, jsonParses := true, detail := none,
        contentLength := none, payload := [] }).call =
      some { url := "/shared_videos", method := "GET",
             headers := [("Authorization", "Bearer null")], body := none } := rfl

/-- C1 (amended): in the apiRequest client every protected operation
(list fetch, create, edit save, delete, title lookup) invoked with no
token short-circuits before the network: no request event occurs, the
view switches to login and the local Not authenticated error surfaces
in the operation's own error channel. The legacy static client lacks
this guard (see the counterexample). -/
theorem apiRequest_client_no_token_short_circuits
    (localeDate : Int → String) (now : Int)
    (serialize : ShareBody → String) (s : ClientState)
    (h : s.authToken = none)
    (nm si dv : String) (respC : HttpResponse CreateResult)
    (hn : nm ≠ "") (hsi : parseIntJS si ≠ none) (hdv : parseIntJS dv ≠ none)
    (shareIdE nmE dvE : String) (respE : HttpResponse Unit)
    (hnE : nmE ≠ "") (hdvE : parseIntJS dvE ≠ none)
    (shareIdD : String) (respD : HttpResponse Unit)
    (priorName stashIdL : String) (respL : HttpResponse LookupData)
    (hL : stashIdL ≠ "")
    (respF : HttpResponse (List Video)) :
    ((fetchSharedVideos localeDate now s respF).call = none ∧
      (fetchSharedVideos localeDate now s respF).state.view = View.login) ∧
    ((shareFormSubmit serialize s nm si dv respC).trace = [] ∧
      (shareFormSubmit serialize s nm si dv respC).state.view = View.login ∧
      (shareFormSubmit serialize s nm si dv respC).shareError =
        "Failed to share video: " ++ "Not authenticated") ∧
    ((saveEditClick serialize s shareIdE nmE dvE respE).trace = [] ∧
      (saveEditClick serialize s shareIdE nmE dvE respE).state.view = View.login ∧
      (saveEditClick serialize s shareIdE nmE dvE respE).editError =
        "Failed to update share: " ++ "Not authenticated") ∧
    ((deleteButtonClick s shareIdD true respD).trace = [] ∧
      (deleteButtonClick s shareIdD true respD).state.view = View.login ∧
      (deleteButtonClick s shareIdD true respD).alertMessage =
        "Failed to delete share: " ++ "Not authenticated") ∧
    ((lookupTitleClick s priorName stashIdL respL).call = none ∧
      (lookupTitleClick s priorName stashIdL respL).state.view = View.login ∧
      (lookupTitleClick s priorName stashIdL respL).shareError =
        "Error looking up title: " ++ "Not authenticated") := by
  have hvalC : ¬ (nm = "" ∨ parseIntJS si = none ∨ parseIntJS dv = none) :=
    fun hc => hc.elim hn (fun hc2 => hc2.elim hsi hdv)
  have hvalE : ¬ (nmE = "" ∨ parseIntJS dvE = none) :=
    fun hc => hc.elim hnE hdvE
  refine ⟨?_, ?_, ?_, ?_, ?_⟩
  · unfold fetchSharedVideos
    rw [apiRequest_guard unitSerialize s "/shared_videos" "GET" noBody respF h]
    exact ⟨rfl, rfl⟩
  · unfold shareFormSubmit
    rw [if_neg hvalC]
    dsimp only []
    rw [apiRequest_guard serialize s "/share" "POST" _ respC h]
    exact ⟨rfl, rfl, rfl⟩
  · unfold saveEditClick
    rw [if_neg hvalE]
    dsimp only []
    rw [apiRequest_guard serialize s ("/edit_share/" ++ shareIdE) "PUT" _ respE h]
    exact ⟨rfl, rfl, rfl⟩
  · unfold deleteButtonClick
    rw [if_neg (by decide : ¬ (true = false))]
    dsimp only []
    rw [apiRequest_guard unitSerialize s ("/delete_share/" ++ shareIdD) "DELETE" noBody respD h]
    exact ⟨rfl, rfl, rfl⟩
  · unfold lookupTitleClick
    rw [if_neg hL]
    dsimp only []
    rw [apiRequest_guard unitSerialize s ("/get_video_title/" ++ stashIdL) "GET" noBody respL h]
    exact ⟨rfl, rfl, rfl⟩

/-- Witness for C1 (amended) at concrete inputs without a token. -/
theorem apiRequest_client_no_token_short_circuits_witness :
    ((fetchSharedVideos (fun _ => "1/1/2020") 0 sampleNoTokenState sampleOkList).call = none ∧
      (fetchSharedVideos (fun _ => "1/1/2020") 0 sampleNoTokenState sampleOkList).state.view = View.login) ∧
    ((shareFormSubmit (fun _ => "b") sampleNoTokenState "My Video" "12" "30" sampleOkCreate).trace = [] ∧
      (shareFormSubmit (fun _ => "b") sampleNoTokenState "My Video" "12" "30" sampleOkCreate).state.view = View.login ∧
      (shareFormSubmit (fun _ => "b") sampleNoTokenState "My Video" "12" "30" sampleOkCreate).shareError =
        "Failed to share video: " ++ "Not authenticated") ∧
    ((saveEditClick (fun _ => "b") sampleNoTokenState "5" "New name" "3" sampleOkUnit).trace = [] ∧
      (saveEditClick (fun _ => "b") sampleNoTokenState "5" "New name" "3" sampleOkUnit).state.view = View.login ∧
      (saveEditClick (fun _ => "b") sampleNoTokenState "5" "New name" "3" sampleOkUnit).editError =
        "Failed to update share: " ++ "Not authenticated") ∧
    ((deleteButtonClick sampleNoTokenState "5" true sampleOkUnit).trace = [] ∧
      (deleteButtonClick sampleNoTokenState "5" true sampleOkUnit).state.view = View.login ∧
      (deleteButtonClick sampleNoTokenState "5" true sampleOkUnit).alertMessage =
        "Failed to delete share: " ++ "Not authenticated") ∧
    ((lookupTitleClick sampleNoTokenState "Old" "42" sampleOkLookup).call = none ∧
      (lookupTitleClick sampleNoTokenState "Old" "42" sampleOkLookup).state.view = View.login ∧
      (lookupTitleClick sampleNoTokenState "Old" "42" sampleOkLookup).shareError =
        "Error looking up title: " ++ "Not authenticated") :=
  apiRequest_client_no_token_short_circuits (fun _ => "1/1/2020") 0 (fun _ => "b")
    sampleNoTokenState rfl
    "My Video" "12" "30" sampleOkCreate (by decide) (by decide) (by decide)
    "5" "New name" "3" sampleOkUnit (by decide) (by decide)
    "5" sampleOkUnit
    "Old" "42" sampleOkLookup (by decide)
    sampleOkList

/-- C3 counterexample: the legacy static client inserts video_name
unescaped, so a record named with a script tag yields that script tag
verbatim in the rendered row markup. -/
theorem static_render_contains_script_tag :
    hasSub ("<script>".data)
      ((staticRenderRow "1/1/2020, 12:00:00 AM"
        { share_id := "9", video_name := "<script>",
          stash_video_id := 3, expires_at := "2020-01-01", hits := 0 }).data) = true := by
  decide

set_option maxRecDepth 100000 in
/-- C3 (amended): the apiRequest client escapes the user-supplied name
through escapeHTML before insertion; escaped text never contains a
markup-opening character, hence never a script tag, for every input
string, and the row rendered for a record named with a script tag
contains no script tag. -/
theorem renderRow_escapes_video_name :
    (∀ nm : String, ('<' : Char) ∉ (escapeHTML nm).data) ∧
    (∀ nm : String, hasSub ("<script".data) ((escapeHTML nm).data) = false) ∧
    hasSub ("<script".data)
      ((renderRow (fun _ => "1/1/2020, 12:00:00 AM") 0
        { share_id := 9, video_name := "<script>", stash_video_id := 3,
          expires_at := 259200000, hits := 0, share_url := "/watch/abc" }).data) = false := by
  refine ⟨escapeHTML_no_lt, ?_, ?_⟩
  · intro nm
    exact hasSub_false_of_no_lt ("<script".data) rfl _ (escapeHTML_no_lt nm)
  · decide

/-- A state holding a valid token, used by witnesses. -/
def sampleAdminState : ClientState :=
  { authToken := some "tok", storedToken := some "tok", view := View.admin }

/-- C4 counterexample: the legacy static client submits the create form
with a non-numeric days-valid value without any local validation — the
POST is issued, refuting the claim for src/static/admin.js. -/
theorem static_share_nonnumeric_days_sends_request :
    (staticShareSubmit (fun _ => "payload") (some "tok") "My Video" "12" "abc"
      sampleOkUnit).call =
      some { url := "/share", method := "POST",
             headers :=
               [("Content-Type", "application/json"),
                ("Authorization", "Bearer tok")],
             body := some "payload" } := rfl

/-- C4 (amended): the apiRequest client validates locally — an empty
name or a non-integer numeric field (days valid in particular) yields
the inline message and no network traffic — and a successful
submission shows the confirmation with the returned share URL, resets
the form and then triggers the refresh. The legacy static client
submits without validation (see the counterexample). -/
theorem shareForm_validates_and_reports
    (serialize : ShareBody → String) (s sOk : ClientState) (tok : String)
    (nm si dv n2 s2 d2 : String) (resp respOk : HttpResponse CreateResult)
    (hinv : nm = "" ∨ parseIntJS si = none ∨ parseIntJS dv = none)
    (hn2 : n2 ≠ "") (hs2 : parseIntJS s2 ≠ none) (hd2 : parseIntJS d2 ≠ none)
    (htok : sOk.authToken = some tok) (hok : respOk.ok = true)
    (hfull : ¬ (respOk.status = 204 ∨ respOk.contentLength = some "0")) :
    shareFormSubmit serialize s nm si dv resp =
      { state := s, trace := [], shareMessage := "",
        shareError := "Please fill in all fields correctly.", formReset := false } ∧
    (shareFormSubmit serialize sOk n2 s2 d2 respOk).shareMessage =
      "Video shared successfully! URL: " ++ respOk.payload.share_url ∧
    (shareFormSubmit serialize sOk n2 s2 d2 respOk).formReset = true ∧
    (shareFormSubmit serialize sOk n2 s2 d2 respOk).trace =
      [Event.request (bearerCall tok "/share" "POST"
        (some (serialize { video_name := n2,
                           stash_video_id := (parseIntJS s2).getD 0,
                           days_valid := (parseIntJS d2).getD 0 }))),
       Event.refresh] := by
  have hval : ¬ (n2 = "" ∨ parseIntJS s2 = none ∨ parseIntJS d2 = none) :=
    fun hc => hc.elim hn2 (fun hc2 => hc2.elim hs2 hd2)
  constructor
  · unfold shareFormSubmit
    rw [if_pos hinv]
  · unfold shareFormSubmit
    rw [if_neg hval]
    dsimp only []
    rw [apiRequest_auth_payload serialize sOk tok "/share" "POST" _ respOk htok hok hfull]
    exact ⟨rfl, rfl, rfl⟩

/-- Witness for C4 (amended): a rejected non-numeric submission and a
successful one. -/
theorem shareForm_validates_and_reports_witness :
    shareFormSubmit (fun _ => "b") sampleNoTokenState "My Video" "12" "abc" sampleOkCreate =
      { state := sampleNoTokenState, trace := [], shareMessage := "",
        shareError := "Please fill in all fields correctly.", formReset := false } ∧
    (shareFormSubmit (fun _ => "b") sampleAdminState "My Video" "12" "30" sampleOkCreate).shareMessage =
      "Video shared successfully! URL: " ++ sampleOkCreate.payload.share_url ∧
    (shareFormSubmit (fun _ => "b") sampleAdminState "My Video" "12" "30" sampleOkCreate).formReset = true ∧
    (shareFormSubmit (fun _ => "b") sampleAdminState "My Video" "12" "30" sampleOkCreate).trace =
      [Event.request (bearerCall "tok" "/share" "POST" (some "b")), Event.refresh] :=
  shareForm_validates_and_reports (fun _ => "b") sampleNoTokenState sampleAdminState "tok"
    "My Video" "12" "abc" "My Video" "12" "30" sampleOkCreate sampleOkCreate
    (Or.inr (Or.inr (by decide))) (by decide) (by decide) (by decide)
    rfl (by decide) (by decide)

theorem apiRequest_auth_call {α β : Type} (serialize : β → String)
    (s : ClientState) (t : String) (url method : String) (body : Option β)
    (resp : HttpResponse α) (h : s.authToken = some t) :
    (apiRequest serialize s url method body true resp).call =
      some (bearerCall t url method (body.map serialize)) := by
  by_cases h401 : resp.status = 401
  · rw [apiRequest_auth_401 serialize s t url method body resp h h401]
  · by_cases hok : resp.ok = true
    · by_cases hemp : resp.status = 204 ∨ resp.contentLength = some "0"
      · rw [apiRequest_auth_empty serialize s t url method body resp h hok hemp]
      · rw [apiRequest_auth_payload serialize s t url method body resp h hok hemp]
    · have hokf : resp.ok = false := by
        cases hx : resp.ok
        · rfl
        · exact absurd hx hok
      rw [apiRequest_auth_fail serialize s t url method body resp h h401 hokf]

/-- C5 counterexample: a 401 response on an authenticated call carries
a server-supplied detail message, yet the error raised is the fixed
Authentication failed text, not the extracted message. -/
theorem apiRequest_401_ignores_server_detail :
    (apiRequest unitSerialize sampleAdminState "/share" "POST" noBody true
      ({ status := 401, jsonParses := true, detail := some "Token expired",
         contentLength := none, payload := () } : HttpResponse Unit)).result =
      Except.error "Authentication failed" ∧
    errorMessage ({ status := 401, jsonParses := true, detail := some "Token expired",
                    contentLength := none, payload := () } : HttpResponse Unit) = "Token expired" ∧
    ("Authentication failed" : String) ≠ "Token expired" :=
  ⟨rfl, rfl, by decide⟩

/-- C5 (amended): the apiRequest contract — bearer header and JSON
content-type attached on authenticated calls, body serialized when
present, empty result for no-content or zero-length success, parsed
payload otherwise, and the server-supplied detail extracted (with
generic fallbacks) for every non-success status except an
authentication failure: a 401 on an authenticated call instead forces
logout and raises the fixed Authentication failed error. -/
theorem apiRequest_contract {α β : Type} (serialize : β → String)
    (s : ClientState) (t : String) (url method : String) (body : Option β)
    (resp respNA : HttpResponse α)
    (h : s.authToken = some t) :
    ((apiRequest serialize s url method body true resp).call =
      some (bearerCall t url method (body.map serialize))) ∧
    (("Authorization", "Bearer " ++ t) ∈ (bearerCall t url method (body.map serialize)).headers) ∧
    (("Content-Type", "application/json") ∈ (bearerCall t url method (body.map serialize)).headers) ∧
    ((bearerCall t url method (body.map serialize)).body = body.map serialize) ∧
    (resp.status = 401 →
      (apiRequest serialize s url method body true resp).result =
        Except.error "Authentication failed") ∧
    (resp.status ≠ 401 → resp.ok = false →
      (apiRequest serialize s url method body true resp).result =
        Except.error (errorMessage resp)) ∧
    (resp.ok = true → (resp.status = 204 ∨ resp.contentLength = some "0") →
      (apiRequest serialize s url method body true resp).result = Except.ok none) ∧
    (resp.ok = true → ¬ (resp.status = 204 ∨ resp.contentLength = some "0") →
      (apiRequest serialize s url method body true resp).result =
        Except.ok (some resp.payload)) ∧
    (resp.jsonParses = false → errorMessage resp = "Unknown error") ∧
    (∀ d : String, resp.jsonParses = true → resp.detail = some d → d ≠ "" →
      errorMessage resp = d) ∧
    (resp.jsonParses = true → resp.detail = none →
      errorMessage resp = "HTTP error! status: " ++ toString resp.status) ∧
    ((apiRequest serialize s url method body false respNA).call =
      some { url := url, method := method,
             headers := [("Content-Type", "application/json")],
             body := body.map serialize }) ∧
    (respNA.ok = false →
      (apiRequest serialize s url method body false respNA).result =
        Except.error (errorMessage respNA)) := by
  refine ⟨apiRequest_auth_call serialize s t url method body resp h,
    by simp [bearerCall], by simp [bearerCall], rfl, ?_, ?_, ?_, ?_, ?_, ?_, ?_, ?_, ?_⟩
  · intro h401
    rw [apiRequest_auth_401 serialize s t url method body resp h h401]
  · intro h401 hokf
    rw [apiRequest_auth_fail serialize s t url method body resp h h401 hokf]
  · intro hok hemp
    rw [apiRequest_auth_empty serialize s t url method body resp h hok hemp]
  · intro hok hfull
    rw [apiRequest_auth_payload serialize s t url method body resp h hok hfull]
  · intro hjp
    simp [errorMessage, hjp]
  · intro d hjp hd hne
    simp [errorMessage, hjp, hd, hne]
  · intro hjp hd
    simp [errorMessage, hjp, hd]
  · unfold apiRequest
    rw [if_neg (by simp)]
    dsimp only []
    rw [if_neg (by simp)]
    by_cases hokf : respNA.ok = false
    · rw [if_pos hokf]
      rfl
    · rw [if_neg hokf]
      by_cases hemp : respNA.status = 204 ∨ respNA.contentLength = some "0"
      · rw [if_pos hemp]
        rfl
      · rw [if_neg hemp]
        rfl
  · intro hokf
    unfold apiRequest
    rw [if_neg (by simp)]
    dsimp only []
    rw [if_neg (by simp)]
    rw [if_pos hokf]

/-- A failing response with a server-supplied detail message. -/
def sampleFail500 : HttpResponse Unit :=
  { status := 500, jsonParses := true, detail := some "boom",
    contentLength := none, payload := () }

/-- Witness for C5 (amended) at a concrete failing DELETE. -/
theorem apiRequest_contract_witness :
    (apiRequest unitSerialize sampleAdminState "/delete_share/5" "DELETE" noBody true
        sampleFail500).call =
      some (bearerCall "tok" "/delete_share/5" "DELETE" (noBody.map unitSerialize)) ∧
    (apiRequest unitSerialize sampleAdminState "/delete_share/5" "DELETE" noBody true
        sampleFail500).result = Except.error (errorMessage sampleFail500) ∧
    errorMessage sampleFail500 = "boom" := by
  have h := apiRequest_contract unitSerialize sampleAdminState "tok"
    "/delete_share/5" "DELETE" noBody sampleFail500 sampleFail500 rfl
  exact ⟨h.1, h.2.2.2.2.2.1 (by decide) (by decide),
    h.2.2.2.2.2.2.2.2.2.1 "boom" rfl rfl (by decide)⟩

/-- C7 counterexample: for an expired record the computed zero-clamped
remaining-days value is 0, yet the edit modal days field is prefilled
with 7 (parseInt(attribute) is 0, which is falsy, so the default 7 is
taken), so the field does not carry the zero-clamped value. -/
theorem expired_record_prefills_seven_not_zero :
    calculateDaysRemaining 1000000 0 = 0 ∧
    (editButtonClick "5" "Some name"
      (toString (calculateDaysRemaining 1000000 0))).editDaysValid = 7 ∧
    ((7 : Int) ≠ 0) :=
  ⟨by decide, by decide, by decide⟩

/-- C7 (amended): the edit modal opens with the name copied from the
row data and the days field set to Math.max(1, remaining-or-7): equal
to the zero-clamped remaining days whenever that value is at least 1,
but 7 when the record is expired (remaining 0) or the attribute is
non-numeric, and never below 1; saving validates non-empty name and
numeric days before the PUT, closes the modal and refreshes on
success, and shows the inline error on failure. -/
theorem edit_modal_prefill_and_validation
    (sid nm dAttr : String)
    (serialize : ShareBody → String) (s : ClientState) (tok : String)
    (shareId nmBad dvBad nm2 dv2 : String)
    (respOk respBad : HttpResponse Unit)
    (hbad : nmBad = "" ∨ parseIntJS dvBad = none)
    (hn2 : nm2 ≠ "") (hd2 : parseIntJS dv2 ≠ none)
    (htok : s.authToken = some tok)
    (hok : respOk.ok = true)
    (h401 : respBad.status ≠ 401) (hbadok : respBad.ok = false) :
    (editButtonClick sid nm dAttr).modalOpen = true ∧
    (editButtonClick sid nm dAttr).editShareId = sid ∧
    (editButtonClick sid nm dAttr).editVideoName = nm ∧
    (editButtonClick sid nm dAttr).editDaysValid = prefillDays dAttr ∧
    (∀ k : Int, parseIntJS dAttr = some k → 1 ≤ k → prefillDays dAttr = k) ∧
    ((parseIntJS dAttr = none ∨ parseIntJS dAttr = some 0) → prefillDays dAttr = 7) ∧
    1 ≤ prefillDays dAttr ∧
    saveEditClick serialize s shareId nmBad dvBad respBad =
      { state := s, trace := [], requestBody := none, modalOpen := true,
        editError := "Please fill in all fields correctly." } ∧
    ((saveEditClick serialize s shareId nm2 dv2 respOk).modalOpen = false ∧
     (saveEditClick serialize s shareId nm2 dv2 respOk).editError = "" ∧
     (saveEditClick serialize s shareId nm2 dv2 respOk).trace =
       [Event.request (bearerCall tok ("/edit_share/" ++ shareId) "PUT"
          (some (serialize { video_name := nm2, stash_video_id := 0,
                             days_valid := (parseIntJS dv2).getD 0 }))),
        Event.refresh]) ∧
    ((saveEditClick serialize s shareId nm2 dv2 respBad).modalOpen = true ∧
     (saveEditClick serialize s shareId nm2 dv2 respBad).editError =
       "Failed to update share: " ++ errorMessage respBad) := by
  have hval : ¬ (nm2 = "" ∨ parseIntJS dv2 = none) :=
    fun hc => hc.elim hn2 hd2
  refine ⟨rfl, rfl, rfl, rfl, ?_, ?_, le_max_left 1 _, ?_, ?_, ?_⟩
  · intro k hparse hk
    unfold prefillDays
    rw [hparse]
    dsimp only []
    rw [if_neg (by omega : ¬ k = 0)]
    exact max_eq_right hk
  · intro hz
    rcases hz with hz | hz
    · simp [prefillDays, hz]
    · simp [prefillDays, hz]
  · unfold saveEditClick
    rw [if_pos hbad]
  · unfold saveEditClick
    rw [if_neg hval]
    dsimp only []
    by_cases hemp : respOk.status = 204 ∨ respOk.contentLength = some "0"
    · rw [apiRequest_auth_empty serialize s tok ("/edit_share/" ++ shareId) "PUT" _ respOk htok hok hemp]
      exact ⟨rfl, rfl, rfl⟩
    · rw [apiRequest_auth_payload serialize s tok ("/edit_share/" ++ shareId) "PUT" _ respOk htok hok hemp]
      exact ⟨rfl, rfl, rfl⟩
  · unfold saveEditClick
    rw [if_neg hval]
    dsimp only []
    rw [apiRequest_auth_fail serialize s tok ("/edit_share/" ++ shareId) "PUT" _ respBad htok h401 hbadok]
    exact ⟨rfl, rfl⟩

/-- Witness for C7 (amended): an expired attribute prefilling 7, a
rejected empty-name save, a successful save and a failing save. -/
theorem edit_modal_prefill_and_validation_witness :
    (editButtonClick "5" "A name" "0").modalOpen = true ∧
    (editButtonClick "5" "A name" "0").editDaysValid = prefillDays "0" ∧
    prefillDays "0" = 7 ∧
    saveEditClick (fun _ => "b") sampleAdminState "5" "" "x" sampleFail500 =
      { state := sampleAdminState, trace := [], requestBody := none,
        modalOpen := true, editError := "Please fill in all fields correctly." } ∧
    (saveEditClick (fun _ => "b") sampleAdminState "5" "New name" "3" sampleOkUnit).modalOpen = false ∧
    (saveEditClick (fun _ => "b") sampleAdminState "5" "New name" "3" sampleOkUnit).editError = "" ∧
    (saveEditClick (fun _ => "b") sampleAdminState "5" "New name" "3" sampleFail500).modalOpen = true ∧
    (saveEditClick (fun _ => "b") sampleAdminState "5" "New name" "3" sampleFail500).editError =
      "Failed to update share: " ++ errorMessage sampleFail500 := by
  obtain ⟨h1, h2, h3, h4, h5, h6, h7, h8, h9, h10⟩ :=
    edit_modal_prefill_and_validation "5" "A name" "0" (fun _ => "b")
      sampleAdminState "tok" "5" "" "x" "New name" "3" sampleOkUnit sampleFail500
      (Or.inl rfl) (by decide) (by decide) rfl (by decide) (by decide) (by decide)
  exact ⟨h1, h4, h6 (Or.inr (by decide)), h8, h9.1, h9.2.1, h10.1, h10.2⟩
